import Mathlib

/-
Verification development for the warranty_rag repository.

The relevant Python code (src/app.py, src/clickhouse_client.py, src/ingest.py,
src/prompts.py) is shallowly embedded below.  Strings are modelled as `String`
or `List Char`; Python str helpers (strip, lower, find, split/join, replace,
slicing) are modelled by executable Lean functions over `List Char`.
Python whitespace is modelled by the six ASCII whitespace characters
(Python str.strip and str.split use the full Unicode set; every string
appearing in the repository only exercises the ASCII subset).
Python str.lower is modelled by ASCII Char.toLower, matching every string
constant the code scans for (all ASCII).
External collaborators (the language model, the database) are modelled as
oracle functions supplied as parameters; the functions under verification
are translated statement by statement from the source.
-/

namespace WarrantyRag

/-- The six ASCII whitespace characters recognised by Python str.strip and
str.split. -/
def pyIsSpace (c : Char) : Bool :=
  c = ' ' || c = '\t' || c = '\n' || c = '\r' || c = '\u000b' || c = '\u000c'

/-- Remove leading whitespace, as Python str.lstrip. -/
def dropLeadingWs (l : List Char) : List Char :=
  l.dropWhile pyIsSpace

/-- Remove trailing whitespace, as Python str.rstrip. -/
def dropTrailingWs (l : List Char) : List Char :=
  (l.reverse.dropWhile pyIsSpace).reverse

/-- Python str.strip(): remove leading and trailing whitespace. -/
def pyStrip (l : List Char) : List Char :=
  dropTrailingWs (dropLeadingWs l)

/-- Python str.lower() (ASCII). -/
def pyLower (l : List Char) : List Char :=
  l.map Char.toLower

/-- Helper of `collapseWs`: Python str.split() with an accumulator holding the
current word reversed. -/
def splitWsAux : List Char → List Char → List (List Char)
  | [], cur => if cur = [] then [] else [cur.reverse]
  | c :: rest, cur =>
    if pyIsSpace c then
      if cur = [] then splitWsAux rest [] else cur.reverse :: splitWsAux rest []
    else
      splitWsAux rest (c :: cur)

/-- Python " ".join(words). -/
def joinWithSpace : List (List Char) → List Char
  | [] => []
  | [w] => w
  | w :: ws => w ++ ' ' :: joinWithSpace ws

/-- Python " ".join(s.split()): collapse every whitespace run to one space and
drop edge whitespace. -/
def collapseWs (l : List Char) : List Char :=
  joinWithSpace (splitWsAux l [])

/-- Python str.find(needle): index of the leftmost occurrence, `none` when the
needle does not occur (Python returns -1 there). -/
def pyFind (needle : List Char) : List Char → Option Nat
  | [] => if needle = [] then some 0 else none
  | h :: t =>
    if needle.isPrefixOf (h :: t) then some 0 else (pyFind needle t).map (· + 1)

/-- Python `needle in hay` substring containment. -/
def containsSubstr (hay needle : List Char) : Bool :=
  (pyFind needle hay).isSome

/-- Python str.find(needle, start): leftmost occurrence at or after `start`. -/
def pyFindFrom (hay needle : List Char) (start : Nat) : Option Nat :=
  (pyFind needle (hay.drop start)).map (· + start)

/-- Helper of `replaceAll`, structurally recursive on a fuel bound that
dominates the length of the remaining text (each step consumes at least one
character when the needle is nonempty). -/
def replaceAllFuel (needle repl : List Char) : Nat → List Char → List Char
  | 0, l => l
  | _ + 1, [] => []
  | fuel + 1, c :: rest =>
    if needle ≠ [] ∧ needle.isPrefixOf (c :: rest) = true then
      repl ++ replaceAllFuel needle repl fuel (rest.drop (needle.length - 1))
    else
      c :: replaceAllFuel needle repl fuel rest

/-- Python str.replace(needle, repl): replace every non-overlapping occurrence,
left to right.  Nonempty needles only (the repository only replaces nonempty
needles). -/
def replaceAll (needle repl hay : List Char) : List Char :=
  replaceAllFuel needle repl hay.length hay

/-- Remove every whitespace character.  Formalises the phrase "spacing
variant" in the claim about the system-catalog scan: a string is a spacing
variant of `system.` when deleting whitespace exposes that substring. -/
def stripAllWs (l : List Char) : List Char :=
  l.filter (fun c => !pyIsSpace c)

/- ===================== src/app.py : _validate_sql_safety ===================== -/

/-- Reason returned for empty SQL (src/app.py line 265). -/
def reasonEmpty : String := "Пустой SQL."

/-- Reason returned for system catalog access (src/app.py line 271). -/
def reasonSystem : String := "Запрещены запросы к system.*"

/-- Reason returned for a statement that does not start with SELECT or WITH
(src/app.py line 275). -/
def reasonSelectOnly : String := "Разрешены только SELECT / WITH ... SELECT."

/-- Reason returned when a forbidden DDL/DML token occurs (src/app.py line 294). -/
def reasonDdl : String := "Запрещены DDL и любые изменения данных."

/-- The forbidden token list of src/app.py lines 277-291, each with its
trailing space. -/
def forbiddenTokens : List (List Char) :=
  ["create ", "alter ", "drop ", "truncate ", "rename ", "attach ", "detach ",
   "insert ", "update ", "delete ", "optimize ", "grant ", "revoke "].map String.data

/-- The value `sql_lower_no_space` of src/app.py lines 263-268:
strip, lower, then collapse whitespace. -/
def sqlCollapsed (sql_text : String) : List Char :=
  collapseWs (pyLower (pyStrip sql_text.data))

/-- src/app.py `_validate_sql_safety` (lines 262-296).  Returns the empty
string when the SQL is safe, otherwise the human-readable reason.  The checks
run in source order: empty, system catalog, allowed start, forbidden tokens. -/
def validate_sql_safety (sql_text : String) : String :=
  if pyStrip sql_text.data = [] then reasonEmpty
  else if containsSubstr (sqlCollapsed sql_text) "system.".data
      || containsSubstr (sqlCollapsed sql_text) " system.".data then reasonSystem
  else if !("select ".data.isPrefixOf (sqlCollapsed sql_text)
      || "with ".data.isPrefixOf (sqlCollapsed sql_text)) then reasonSelectOnly
  else if forbiddenTokens.any (fun token => containsSubstr (sqlCollapsed sql_text) token) then
    reasonDdl
  else ""

/-- Claim-side predicate: the SQL starts case-insensitively with a forbidden
keyword followed by a space. -/
def startsWithForbidden (sql_text : String) : Bool :=
  forbiddenTokens.any (fun token => token.isPrefixOf (pyLower sql_text.data))

/-- Property of a forbidden token used in proofs: nonempty, and its head is a
non-whitespace character distinct from the heads of select and with. -/
def tokenHeadOk (token : List Char) : Bool :=
  match token with
  | [] => false
  | c :: _ => !pyIsSpace c && !(c == 's') && !(c == 'w')

/- ===================== src/app.py : _extract_sql_text ===================== -/

/-- src/app.py `_extract_sql_text` (lines 172-188): extract the SQL body from
an optional fenced block labeled sql; without fences the full stripped text is
the SQL. -/
def extract_sql_text (model_text : String) : String :=
  let text := pyStrip model_text.data
  if text = [] then ""
  else if !containsSubstr text "```".data then String.mk text
  else
    match pyFind "```sql".data (pyLower text) with
    | none => String.mk text
    | some start0 =>
      match pyFindFrom text "\n".data start0 with
      | none => String.mk text
      | some start1 =>
        match pyFindFrom text "```".data (start1 + 1) with
        | none => String.mk (pyStrip (text.drop (start1 + 1)))
        | some end1 => String.mk (pyStrip ((text.drop (start1 + 1)).take (end1 - (start1 + 1))))

/- ===================== src/app.py : _select_mode ===================== -/

/-- src/app.py `_select_mode` (lines 154-165), reply-parsing part: the router
model reply is stripped and lowered; the mode is SQL exactly when the result
contains both the marker and the substring sql. -/
def select_mode (reply : String) : String :=
  let mode_text := pyLower (pyStrip reply.data)
  if containsSubstr mode_text "```mode".data && containsSubstr mode_text "sql".data then "SQL"
  else "RAG"

/-- Modelled from the spec: the value carried by the mode-tag marker — the
text between the marker and the next fence, stripped.  Used only to compare
the claimed routing rule with the source rule. -/
def spec_mode_marker_value (reply : String) : Option String :=
  let mode_text := pyLower (pyStrip reply.data)
  match pyFind "```mode".data mode_text with
  | none => none
  | some i =>
    let after := mode_text.drop (i + 7)
    match pyFind "```".data after with
    | none => some (String.mk (pyStrip after))
    | some j => some (String.mk (pyStrip (after.take j)))

/-- Modelled from the spec: route to SQL exactly when the marker is present
and its value is sql. -/
def spec_select_mode (reply : String) : String :=
  match spec_mode_marker_value reply with
  | some v => if v = "sql" then "SQL" else "RAG"
  | none => "RAG"

/- ===================== src/app.py : _run_sql_with_autofix ===================== -/

/-- Observable calls the SQL pipeline makes: a database execution of a SQL
string, or a model repair call (src/app.py `_fix_sql`) with the failing SQL
and the error text. -/
inductive SqlEvent where
  | execCall (sql : String)
  | fixCall (sql : String) (error_text : String)
deriving DecidableEq

/-- True on repair-call events. -/
def SqlEvent.isFix : SqlEvent → Bool
  | SqlEvent.fixCall _ _ => true
  | _ => false

/-- src/app.py `_run_sql_with_autofix` (lines 303-337).  The language model is
an oracle: `genReply` is its reply to the generation prompt, `fixReply sql err`
its reply to the repair prompt for failing SQL `sql` and error text `err`
(question, schema and history are fixed for the run and absorbed by the
oracles).  `dbExec i s` is the database behaviour of `query_run` on its i-th
invocation of the run.  Returns the result (Except models raise) together with
the list of external calls in order. -/
def run_sql_with_autofix {Df : Type} (genReply : String)
    (fixReply : String → String → String)
    (dbExec : Nat → String → Except String Df) :
    Except String (Df × String) × List SqlEvent :=
  let sql_text := extract_sql_text genReply
  if sql_text = "" then (Except.error "GPT не вернул SQL.", [])
  else if validate_sql_safety sql_text ≠ "" then
    (Except.error ("SQL заблокирован: " ++ validate_sql_safety sql_text), [])
  else
    match dbExec 0 sql_text with
    | Except.ok df => (Except.ok (df, sql_text), [SqlEvent.execCall sql_text])
    | Except.error error_text =>
      let fixed_sql := extract_sql_text (fixReply sql_text error_text)
      if fixed_sql = "" then
        (Except.error error_text,
          [SqlEvent.execCall sql_text, SqlEvent.fixCall sql_text error_text])
      else if validate_sql_safety fixed_sql ≠ "" then
        (Except.error ("SQL заблокирован: " ++ validate_sql_safety fixed_sql),
          [SqlEvent.execCall sql_text, SqlEvent.fixCall sql_text error_text])
      else
        match dbExec 1 fixed_sql with
        | Except.ok df =>
          (Except.ok (df, fixed_sql),
            [SqlEvent.execCall sql_text, SqlEvent.fixCall sql_text error_text,
              SqlEvent.execCall fixed_sql])
        | Except.error error2 =>
          (Except.error error2,
            [SqlEvent.execCall sql_text, SqlEvent.fixCall sql_text error_text,
              SqlEvent.execCall fixed_sql])

/- ===================== src/app.py : _handle_sql_message ===================== -/

/-- Session state: the chat message contents and the executed-SQL history
(st.session_state.messages / st.session_state.sql_history). -/
structure SessionState where
  messages : List String
  sql_history : List String
deriving DecidableEq

/-- src/app.py `_handle_sql_message` (lines 356-368), acting on the completed
pipeline result: on failure only an error chat message is appended; on success
the executed SQL is appended to the SQL history and a chat message is
appended. -/
def handle_sql_message {Df : Type} (st : SessionState)
    (result : Except String (Df × String)) : SessionState :=
  match result with
  | Except.error error_text =>
    { st with messages := st.messages ++ ["Ошибка SQL: " ++ error_text] }
  | Except.ok (_, used_sql) =>
    { st with
      sql_history := st.sql_history ++ [used_sql],
      messages := st.messages ++ ["Готово. Выполнил SQL и показал результат."] }

/-- A session processing a sequence of completed SQL-pipeline results in
order. -/
def run_session {Df : Type} (st : SessionState)
    (results : List (Except String (Df × String))) : SessionState :=
  results.foldl (fun s r => handle_sql_message s r) st

/-- The executed SQL of a successful pipeline result. -/
def okSql {Df : Type} : Except String (Df × String) → Option String
  | Except.ok (_, used_sql) => some used_sql
  | Except.error _ => none

/- ===================== src/clickhouse_client.py : query_run ===================== -/

/-- src/clickhouse_client.py lines 47: the unknown-table error signature. -/
def unknown_table_error (error_text : String) : Bool :=
  containsSubstr error_text.data "Code: 60".data
    || containsSubstr error_text.data "UNKNOWN_TABLE".data

/-- src/clickhouse_client.py lines 59-69: the duplicate-database-prefix
rewrite, applying the four quoting variants in order; each replacement
replaces every occurrence. -/
def collapse_db_qualifier (db : String) (query_text : String) : String :=
  let replacements : List (String × String) :=
    [(db ++ "." ++ db ++ ".", db ++ "."),
     ("`" ++ db ++ "`.`" ++ db ++ "`.", "`" ++ db ++ "`."),
     ("`" ++ db ++ "`." ++ db ++ ".", "`" ++ db ++ "`."),
     (db ++ ".`" ++ db ++ "`.", db ++ ".")]
  String.mk (replacements.foldl
    (fun acc nr =>
      if containsSubstr acc nr.1.data then replaceAll nr.1.data nr.2.data acc else acc)
    query_text.data)

/-- src/clickhouse_client.py `query_run` (lines 41-75).  `db` is the
configured database name, `dbExec i s` the database engine behaviour on the
i-th client.query call of this invocation.  Returns the result together with
the query texts actually sent to the database, in order. -/
def query_run {Df : Type} (db : String) (dbExec : Nat → String → Except String Df)
    (query_text : String) : Except String Df × List String :=
  match dbExec 0 query_text with
  | Except.ok result => (Except.ok result, [query_text])
  | Except.error error_text =>
    if !unknown_table_error error_text then (Except.error error_text, [query_text])
    else
      let db_clean := String.mk (pyStrip db.data)
      if db_clean = "" then (Except.error error_text, [query_text])
      else
        let fixed_query := collapse_db_qualifier db_clean query_text
        if fixed_query ≠ query_text then
          (dbExec 1 fixed_query, [query_text, fixed_query])
        else (Except.error error_text, [query_text])

/- ===================== src/prompts.py and src/app.py : RAG messages ===================== -/

/-- A chat-completion message. -/
structure ChatMessage where
  role : String
  content : String
deriving DecidableEq

/-- src/prompts.py RAG_SYSTEM_PROMPT (lines 13-21, already stripped). -/
def RAG_SYSTEM_PROMPT : String :=
  "Ты — ассистент по базе знаний.\n\nПравила:\n- Если вопрос про базу знаний — отвечай ТОЛЬКО по предоставленному контексту.\n- Если вопрос про сам диалог (например: \"что я спрашивал\", \"что ты ответил\") — используй историю сообщений в чате.\n- Если вопрос НЕ про диалог и в контексте нет ответа, скажи: \"В индексе базы знаний нет данных по запросу (или индекс не создан).\"\n- Не выдумывай факты, таблицы, поля, цифры, даты."

/-- src/app.py `_answer_with_rag` (lines 382-398), message-assembly part: the
message list actually sent to the model is system prompt, context block, then
history — no SQL-history block is ever added. -/
def answer_with_rag_messages (context_text : String) (history : List ChatMessage) :
    List ChatMessage :=
  [ChatMessage.mk "system" RAG_SYSTEM_PROMPT,
   ChatMessage.mk "system"
     (String.mk (pyStrip ("КОНТЕКСТ БАЗЫ ЗНАНИЙ:\n" ++ context_text).data))]
  ++ history

/-- src/prompts.py `build_rag_messages` (lines 36-42): system prompt, then the
SQL-history block when non-empty, then the context block, then history. -/
def build_rag_messages (context : String) (history : List ChatMessage)
    (sql_history_text : String) : List ChatMessage :=
  let messages := [ChatMessage.mk "system" RAG_SYSTEM_PROMPT]
  let messages :=
    if sql_history_text ≠ "" then messages ++ [ChatMessage.mk "system" sql_history_text]
    else messages
  let messages := messages
    ++ [ChatMessage.mk "system" (String.mk (pyStrip ("КОНТЕКСТ БАЗЫ ЗНАНИЙ:\n" ++ context).data))]
  messages ++ history

/- ===================== src/ingest.py : _chunk_text ===================== -/

/-- src/ingest.py `_chunk_text` (lines 59-72): strip the text, walk it in
steps of chunk_size - overlap, strip every chunk_size-character slice and keep
the non-empty ones. -/
def chunk_text (text : String) (chunk_size overlap : Nat) : List String :=
  let clean_text := pyStrip text.data
  if clean_text = [] then []
  else
    let overlap2 := if overlap ≥ chunk_size then max 0 (chunk_size / 4) else overlap
    let step := max 1 (chunk_size - overlap2)
    ((List.range ((clean_text.length + step - 1) / step)).map (fun i => i * step)).filterMap
      (fun start =>
        let ct := pyStrip ((clean_text.drop start).take chunk_size)
        if ct = [] then none else some (String.mk ct))

/- ===================== Helper lemmas ===================== -/

theorem dropTrailingWs_eq_rdropWhile (l : List Char) :
    dropTrailingWs l = l.rdropWhile pyIsSpace := rfl

theorem all_dropWhile_iff (p : Char → Bool) (l : List Char) :
    (∀ x ∈ l.dropWhile p, p x = true) ↔ (∀ x ∈ l, p x = true) := by
  constructor
  · intro h x hx
    rw [← List.takeWhile_append_dropWhile (p := p) (l := l)] at hx
    rcases List.mem_append.mp hx with h1 | h2
    · exact List.mem_takeWhile_imp h1
    · exact h x h2
  · intro h x hx
    exact h x ((List.dropWhile_sublist p).subset hx)

theorem pyStrip_eq_nil_iff (l : List Char) :
    pyStrip l = [] ↔ ∀ c ∈ l, pyIsSpace c = true := by
  show dropTrailingWs (dropLeadingWs l) = [] ↔ _
  rw [dropTrailingWs_eq_rdropWhile, List.rdropWhile_eq_nil_iff]
  exact all_dropWhile_iff pyIsSpace l

theorem dropWhile_head_false (p : Char → Bool) :
    ∀ (l : List Char) (c : Char) (t : List Char), l.dropWhile p = c :: t → p c = false := by
  intro l
  induction l with
  | nil => intro c t h; simp [List.dropWhile] at h
  | cons a l ih =>
    intro c t h
    rw [List.dropWhile_cons] at h
    by_cases ha : p a = true
    · rw [if_pos ha] at h
      exact ih c t h
    · rw [if_neg ha] at h
      injection h with h1 _
      subst h1
      exact Bool.not_eq_true _ ▸ ha

theorem pyStrip_head_not_space (l : List Char) (c : Char) (t : List Char)
    (h : pyStrip l = c :: t) : pyIsSpace c = false := by
  have hpre : pyStrip l <+: dropLeadingWs l := by
    show dropTrailingWs (dropLeadingWs l) <+: dropLeadingWs l
    rw [dropTrailingWs_eq_rdropWhile]
    exact List.rdropWhile_prefix _ _
  rw [h] at hpre
  obtain ⟨r, hr⟩ := hpre
  exact dropWhile_head_false pyIsSpace l c (t ++ r) (by simpa using hr.symm)

theorem pyStrip_idem (l : List Char) : pyStrip (pyStrip l) = pyStrip l := by
  have h2 : dropTrailingWs (pyStrip l) = pyStrip l := by
    show dropTrailingWs (dropTrailingWs (dropLeadingWs l)) = dropTrailingWs (dropLeadingWs l)
    rw [dropTrailingWs_eq_rdropWhile, dropTrailingWs_eq_rdropWhile]
    exact List.rdropWhile_idempotent _ _
  have h1 : dropLeadingWs (pyStrip l) = pyStrip l := by
    cases h : pyStrip l with
    | nil => rfl
    | cons c t =>
      have hc := pyStrip_head_not_space l c t h
      show List.dropWhile pyIsSpace (c :: t) = c :: t
      rw [List.dropWhile_cons, if_neg (by simp [hc])]
  show dropTrailingWs (dropLeadingWs (pyStrip l)) = pyStrip l
  rw [h1, h2]

theorem pyStrip_length_le (l : List Char) : (pyStrip l).length ≤ l.length := by
  have h1 : (dropTrailingWs (dropLeadingWs l)).length ≤ (dropLeadingWs l).length := by
    rw [dropTrailingWs_eq_rdropWhile]
    exact (List.rdropWhile_prefix _ _).sublist.length_le
  have h2 : (dropLeadingWs l).length ≤ l.length :=
    (List.dropWhile_sublist _).length_le
  exact le_trans h1 h2

theorem joinWithSpace_splitWsAux (l : List Char) :
    ∀ cur : List Char, cur ≠ [] →
      ∃ t, joinWithSpace (splitWsAux l cur) = cur.reverse ++ t := by
  induction l with
  | nil =>
    intro cur hcur
    refine ⟨[], ?_⟩
    show joinWithSpace (if cur = [] then [] else [cur.reverse]) = _
    rw [if_neg hcur]
    simp [joinWithSpace]
  | cons c rest ih =>
    intro cur hcur
    simp only [splitWsAux]
    by_cases hc : pyIsSpace c = true
    · rw [if_pos hc, if_neg hcur]
      cases hsp : splitWsAux rest [] with
      | nil => exact ⟨[], by simp [joinWithSpace]⟩
      | cons w ws => exact ⟨' ' :: joinWithSpace (w :: ws), by simp [joinWithSpace]⟩
    · rw [if_neg hc]
      obtain ⟨t, ht⟩ := ih (c :: cur) (by simp)
      refine ⟨c :: t, ?_⟩
      rw [ht, List.reverse_cons, List.append_assoc]
      rfl

theorem collapseWs_cons_not_space (c : Char) (l : List Char) (hc : pyIsSpace c = false) :
    ∃ t, collapseWs (c :: l) = c :: t := by
  show ∃ t, joinWithSpace (splitWsAux (c :: l) []) = c :: t
  have hstep : splitWsAux (c :: l) [] = splitWsAux l [c] := by
    simp only [splitWsAux]
    rw [if_neg (by simp [hc])]
  rw [hstep]
  obtain ⟨t, ht⟩ := joinWithSpace_splitWsAux l [c] (by simp)
  exact ⟨t, by simpa using ht⟩

theorem isPrefixOf_cons_head {a b : Char} {as bs : List Char}
    (h : (a :: as).isPrefixOf (b :: bs) = true) : a = b := by
  rw [List.isPrefixOf_iff_prefix, List.cons_prefix_cons] at h
  exact h.1

theorem space_toLower (c : Char) (h : pyIsSpace c = true) : Char.toLower c = c := by
  simp only [pyIsSpace, Bool.or_eq_true, decide_eq_true_eq] at h
  rcases h with ((((h | h) | h) | h) | h) | h <;> subst h <;> decide

theorem forbidden_tokens_head_ok : forbiddenTokens.all tokenHeadOk = true := by decide

/- ===================== C3 ===================== -/

/-- C3 (amended): every SQL string that starts case-insensitively with a
forbidden DDL/DML keyword followed by a space is reported unsafe by the
Safety Validator with either the system-catalog reason or the
only-SELECT/WITH reason — never with the DDL/DML reason and never as safe:
the allowed-start rule fires before the DDL/DML token scan, so a keyword in
start position is caught by the earlier rules. -/
theorem forbidden_keyword_start_rejected (s : String)
    (h : startsWithForbidden s = true) :
    (validate_sql_safety s = reasonSystem ∨ validate_sql_safety s = reasonSelectOnly) ∧
    validate_sql_safety s ≠ reasonDdl ∧ validate_sql_safety s ≠ "" := by
  obtain ⟨token, htok, hpre⟩ := List.any_eq_true.mp h
  have hok : tokenHeadOk token = true :=
    List.all_eq_true.mp forbidden_tokens_head_ok token htok
  cases token with
  | nil => simp [tokenHeadOk] at hok
  | cons c0 ts =>
    simp only [tokenHeadOk, Bool.and_eq_true, Bool.not_eq_true', beq_eq_false_iff_ne,
      ne_eq] at hok
    obtain ⟨⟨hsp, hs0⟩, hw0⟩ := hok
    rw [List.isPrefixOf_iff_prefix] at hpre
    cases hd : s.data with
    | nil =>
      rw [hd] at hpre
      simp [pyLower] at hpre
    | cons c rest =>
      rw [hd] at hpre
      have hmap : pyLower (c :: rest) = Char.toLower c :: pyLower rest := rfl
      rw [hmap, List.cons_prefix_cons] at hpre
      obtain ⟨hc0, _⟩ := hpre
      have hcns : pyIsSpace c = false := by
        by_cases hcc : pyIsSpace c = true
        · rw [space_toLower c hcc] at hc0
          rw [hc0] at hsp
          rw [hsp] at hcc
          exact absurd hcc (by decide)
        · exact Bool.not_eq_true _ ▸ hcc
      have hstrip : ∃ t2, pyStrip s.data = c :: t2 := by
        have hd1 : dropLeadingWs s.data = s.data := by
          rw [hd]
          show List.dropWhile pyIsSpace (c :: rest) = c :: rest
          rw [List.dropWhile_cons, if_neg (by simp [hcns])]
        have hpfx : pyStrip s.data <+: s.data := by
          conv_rhs => rw [← hd1]
          show dropTrailingWs (dropLeadingWs s.data) <+: dropLeadingWs s.data
          rw [dropTrailingWs_eq_rdropWhile]
          exact List.rdropWhile_prefix _ _
        have hne : pyStrip s.data ≠ [] := by
          rw [Ne, pyStrip_eq_nil_iff]
          intro hall
          have := hall c (by rw [hd]; exact List.mem_cons_self _ _)
          rw [hcns] at this
          exact Bool.false_ne_true this
        cases hsd : pyStrip s.data with
        | nil => exact absurd hsd hne
        | cons d t2 =>
          rw [hsd, hd, List.cons_prefix_cons] at hpfx
          exact ⟨t2, by rw [hpfx.1]⟩
      obtain ⟨t2, ht2⟩ := hstrip
      have hlowsp : pyIsSpace (Char.toLower c) = false := by
        rw [← hc0]; exact hsp
      obtain ⟨t3, ht3⟩ : ∃ t3, sqlCollapsed s = Char.toLower c :: t3 := by
        show ∃ t3, collapseWs (pyLower (pyStrip s.data)) = _
        rw [ht2]
        have : pyLower (c :: t2) = Char.toLower c :: pyLower t2 := rfl
        rw [this]
        exact collapseWs_cons_not_space _ _ hlowsp
      have hA : "select ".data.isPrefixOf (sqlCollapsed s) = false := by
        cases hA2 : "select ".data.isPrefixOf (sqlCollapsed s) with
        | false => rfl
        | true =>
          have hse : "select ".data = 's' :: "elect ".data := rfl
          rw [hse, ht3] at hA2
          have := isPrefixOf_cons_head hA2
          rw [← hc0] at this
          exact absurd this.symm hs0
      have hB : "with ".data.isPrefixOf (sqlCollapsed s) = false := by
        cases hB2 : "with ".data.isPrefixOf (sqlCollapsed s) with
        | false => rfl
        | true =>
          have hwi : "with ".data = 'w' :: "ith ".data := rfl
          rw [hwi, ht3] at hB2
          have := isPrefixOf_cons_head hB2
          rw [← hc0] at this
          exact absurd this.symm hw0
      have hnotnil : ¬ pyStrip s.data = [] := by
        rw [ht2]
        simp
      have hmain : validate_sql_safety s = reasonSystem
          ∨ validate_sql_safety s = reasonSelectOnly := by
        unfold validate_sql_safety
        rw [if_neg hnotnil]
        by_cases hsys : (containsSubstr (sqlCollapsed s) "system.".data
            || containsSubstr (sqlCollapsed s) " system.".data) = true
        · rw [if_pos hsys]
          exact Or.inl rfl
        · rw [if_neg hsys, if_pos (by rw [hA, hB]; rfl)]
          exact Or.inr rfl
      refine ⟨hmain, ?_, ?_⟩
      · rcases hmain with hm | hm <;> rw [hm] <;> decide
      · rcases hmain with hm | hm <;> rw [hm] <;> decide

/-- C3 witness: a concrete string starting with a forbidden keyword is
reported unsafe with the only-SELECT/WITH reason, not the DDL/DML reason. -/
theorem forbidden_keyword_start_rejected_witness :
    startsWithForbidden "insert into t values (1)" = true ∧
    (validate_sql_safety "insert into t values (1)" = reasonSystem ∨
      validate_sql_safety "insert into t values (1)" = reasonSelectOnly) ∧
    validate_sql_safety "insert into t values (1)" ≠ reasonDdl ∧
    validate_sql_safety "insert into t values (1)" ≠ "" :=
  ⟨by decide, forbidden_keyword_start_rejected "insert into t values (1)" (by decide)⟩

/-- C3 counterexample: a string starting with a forbidden keyword followed by
a space is rejected, but with the only-SELECT/WITH reason (the allowed-start
rule fires before the DDL/DML token scan), not with the DDL/DML reason the
claim states. -/
theorem forbidden_keyword_start_wrong_reason :
    startsWithForbidden "drop table x" = true ∧
    validate_sql_safety "drop table x" = reasonSelectOnly ∧
    reasonSelectOnly ≠ reasonDdl := by decide

/- ===================== C4 ===================== -/

/-- C4 (amended): every SQL string whose stripped, lowered,
whitespace-collapsed form contains the contiguous substring system. is
reported unsafe with the system-catalog reason; spacing variants that put
whitespace between system and the dot survive the collapse and are NOT
reported unsafe (see the counterexample). -/
theorem system_catalog_collapsed_scan (s : String)
    (h : containsSubstr (sqlCollapsed s) "system.".data = true) :
    validate_sql_safety s = reasonSystem := by
  have h1 : ¬ pyStrip s.data = [] := by
    intro he
    have hnil : sqlCollapsed s = [] := by
      show collapseWs (pyLower (pyStrip s.data)) = []
      rw [he]
      rfl
    rw [hnil] at h
    exact absurd h (by decide)
  have h2 : (containsSubstr (sqlCollapsed s) "system.".data
      || containsSubstr (sqlCollapsed s) " system.".data) = true := by
    rw [h]
    rfl
  unfold validate_sql_safety
  rw [if_neg h1, if_pos h2]

/-- C4 witness: a concrete SELECT over system.one is blocked with the
system-catalog reason. -/
theorem system_catalog_collapsed_scan_witness :
    containsSubstr (sqlCollapsed "SELECT * FROM system.one") "system.".data = true ∧
    validate_sql_safety "SELECT * FROM system.one" = reasonSystem :=
  ⟨by decide, system_catalog_collapsed_scan "SELECT * FROM system.one" (by decide)⟩

/-- C4 counterexample: a spacing variant of system. with whitespace before
the dot (deleting whitespace exposes the substring system.) is classified
safe by the validator, refuting the claim that every case/spacing variant is
reported unsafe. -/
theorem system_catalog_spacing_variant_safe :
    containsSubstr (stripAllWs (pyLower "select * from system .one".data)) "system.".data
      = true ∧
    validate_sql_safety "select * from system .one" = "" := by decide

/- ===================== C5 ===================== -/

/-- C5 (amended): the router returns SQL exactly when the stripped, lowered
reply contains the marker substring and contains the substring sql ANYWHERE
(not necessarily as the marker value); every other reply yields RAG. -/
theorem select_mode_substring_rule (reply : String) :
    (select_mode reply = "SQL" ∨ select_mode reply = "RAG") ∧
    (select_mode reply = "SQL" ↔
      containsSubstr (pyLower (pyStrip reply.data)) "```mode".data = true ∧
      containsSubstr (pyLower (pyStrip reply.data)) "sql".data = true) := by
  simp only [select_mode]
  by_cases hb : (containsSubstr (pyLower (pyStrip reply.data)) "```mode".data
      && containsSubstr (pyLower (pyStrip reply.data)) "sql".data) = true
  · rw [if_pos hb]
    rw [Bool.and_eq_true_iff] at hb
    exact ⟨Or.inl rfl, ⟨fun _ => hb, fun _ => rfl⟩⟩
  · rw [if_neg hb]
    refine ⟨Or.inr rfl, ⟨fun hr => absurd hr (by decide), fun hc => ?_⟩⟩
    exact absurd (Bool.and_eq_true_iff.mpr hc) hb

/-- C5 witness: a reply carrying the marker and sql routes to SQL. -/
theorem select_mode_substring_rule_witness :
    select_mode "```mode sql" = "SQL" :=
  (select_mode_substring_rule "```mode sql").2.mpr ⟨by decide, by decide⟩

/-- C5 counterexample: a reply whose marker value is rag but which contains
sql elsewhere (inside mysql) routes to SQL, refuting the claim that only a
marker value of sql yields SQL. -/
theorem select_mode_marker_value_ignored :
    spec_mode_marker_value "```mode\nrag\n``` mysql" = some "rag" ∧
    spec_select_mode "```mode\nrag\n``` mysql" = "RAG" ∧
    select_mode "```mode\nrag\n``` mysql" = "SQL" := by decide

/- ===================== C8 ===================== -/

/-- C8 (amended): the three concrete extraction cases hold, and the full
trimmed text is returned when no fence markers are present; when a sql fence
start marker is present with no matching closing fence AND a line break
follows the marker, everything after the marker line is returned (trimmed);
when no line break follows the marker the full trimmed text is returned
instead (this last case refutes the unconditional phrasing of the claim). -/
theorem extract_sql_behavior (s : String) :
    extract_sql_text "```sql\nSELECT 1\n```" = "SELECT 1" ∧
    extract_sql_text "SELECT 1" = "SELECT 1" ∧
    extract_sql_text "" = "" ∧
    (containsSubstr (pyStrip s.data) "```".data = false →
      extract_sql_text s = String.mk (pyStrip s.data)) ∧
    (∀ i j, containsSubstr (pyStrip s.data) "```".data = true →
      pyFind "```sql".data (pyLower (pyStrip s.data)) = some i →
      pyFindFrom (pyStrip s.data) "\n".data i = some j →
      pyFindFrom (pyStrip s.data) "```".data (j + 1) = none →
      extract_sql_text s = String.mk (pyStrip ((pyStrip s.data).drop (j + 1)))) ∧
    (∀ i, containsSubstr (pyStrip s.data) "```".data = true →
      pyFind "```sql".data (pyLower (pyStrip s.data)) = some i →
      pyFindFrom (pyStrip s.data) "\n".data i = none →
      extract_sql_text s = String.mk (pyStrip s.data)) := by
  refine ⟨by decide, by decide, by decide, ?_, ?_, ?_⟩
  · intro hnb
    by_cases h0 : pyStrip s.data = []
    · simp only [extract_sql_text]
      rw [if_pos h0, h0]
    · simp only [extract_sql_text]
      rw [if_neg h0, if_pos (by rw [hnb]; rfl)]
  · intro i j hb hm hn hc
    by_cases h0 : pyStrip s.data = []
    · rw [h0] at hb
      exact absurd hb (by decide)
    · simp only [extract_sql_text]
      rw [if_neg h0, if_neg (by rw [hb]; decide)]
      simp only [hm, hn, hc]
  · intro i hb hm hn
    by_cases h0 : pyStrip s.data = []
    · rw [h0] at hb
      exact absurd hb (by decide)
    · simp only [extract_sql_text]
      rw [if_neg h0, if_neg (by rw [hb]; decide)]
      simp only [hm, hn]

/-- C8 witness: a fenced block with no closing fence but with a newline after
the marker yields everything after the marker line, trimmed. -/
theorem extract_sql_behavior_witness :
    extract_sql_text "```sql\nSELECT 1" =
      String.mk (pyStrip ((pyStrip "```sql\nSELECT 1".data).drop 7)) :=
  (extract_sql_behavior "```sql\nSELECT 1").2.2.2.2.1 0 6
    (by decide) (by decide) (by decide) (by decide)

/-- C8 counterexample: a sql fence start marker with no newline afterwards
and no matching closing fence makes the function return the full text
(including the marker), not the empty remainder after the marker line. -/
theorem extract_sql_no_newline_full_text :
    pyFind "```sql".data (pyLower (pyStrip "```sql SELECT 1".data)) = some 0 ∧
    pyFindFrom (pyStrip "```sql SELECT 1".data) "```".data 1 = none ∧
    extract_sql_text "```sql SELECT 1" = "```sql SELECT 1" ∧
    ("```sql SELECT 1" : String) ≠ "" := by decide

/- ===================== SQL pipeline case equations ===================== -/

theorem run_sql_gen_empty {Df : Type} (genReply : String)
    (fixReply : String → String → String) (dbExec : Nat → String → Except String Df)
    (hg : extract_sql_text genReply = "") :
    run_sql_with_autofix genReply fixReply dbExec =
      (Except.error "GPT не вернул SQL.", []) := by
  simp [run_sql_with_autofix, hg]

theorem run_sql_gen_blocked {Df : Type} (genReply : String)
    (fixReply : String → String → String) (dbExec : Nat → String → Except String Df)
    (hg : extract_sql_text genReply ≠ "")
    (hv : validate_sql_safety (extract_sql_text genReply) ≠ "") :
    run_sql_with_autofix genReply fixReply dbExec =
      (Except.error ("SQL заблокирован: " ++ validate_sql_safety (extract_sql_text genReply)),
        []) := by
  simp [run_sql_with_autofix, hg, hv]

theorem run_sql_exec_ok {Df : Type} (genReply : String)
    (fixReply : String → String → String) (dbExec : Nat → String → Except String Df)
    (df : Df) (hg : extract_sql_text genReply ≠ "")
    (hv : validate_sql_safety (extract_sql_text genReply) = "")
    (he : dbExec 0 (extract_sql_text genReply) = Except.ok df) :
    run_sql_with_autofix genReply fixReply dbExec =
      (Except.ok (df, extract_sql_text genReply),
        [SqlEvent.execCall (extract_sql_text genReply)]) := by
  simp [run_sql_with_autofix, hg, hv, he]

theorem run_sql_fix_empty {Df : Type} (genReply : String)
    (fixReply : String → String → String) (dbExec : Nat → String → Except String Df)
    (e : String) (hg : extract_sql_text genReply ≠ "")
    (hv : validate_sql_safety (extract_sql_text genReply) = "")
    (he : dbExec 0 (extract_sql_text genReply) = Except.error e)
    (hf : extract_sql_text (fixReply (extract_sql_text genReply) e) = "") :
    run_sql_with_autofix genReply fixReply dbExec =
      (Except.error e,
        [SqlEvent.execCall (extract_sql_text genReply),
         SqlEvent.fixCall (extract_sql_text genReply) e]) := by
  simp [run_sql_with_autofix, hg, hv, he, hf]

theorem run_sql_fix_blocked {Df : Type} (genReply : String)
    (fixReply : String → String → String) (dbExec : Nat → String → Except String Df)
    (e : String) (hg : extract_sql_text genReply ≠ "")
    (hv : validate_sql_safety (extract_sql_text genReply) = "")
    (he : dbExec 0 (extract_sql_text genReply) = Except.error e)
    (hf : extract_sql_text (fixReply (extract_sql_text genReply) e) ≠ "")
    (hv2 : validate_sql_safety (extract_sql_text (fixReply (extract_sql_text genReply) e)) ≠ "") :
    run_sql_with_autofix genReply fixReply dbExec =
      (Except.error ("SQL заблокирован: "
          ++ validate_sql_safety (extract_sql_text (fixReply (extract_sql_text genReply) e))),
        [SqlEvent.execCall (extract_sql_text genReply),
         SqlEvent.fixCall (extract_sql_text genReply) e]) := by
  simp [run_sql_with_autofix, hg, hv, he, hf, hv2]

theorem run_sql_fix_exec_ok {Df : Type} (genReply : String)
    (fixReply : String → String → String) (dbExec : Nat → String → Except String Df)
    (e : String) (df2 : Df) (hg : extract_sql_text genReply ≠ "")
    (hv : validate_sql_safety (extract_sql_text genReply) = "")
    (he : dbExec 0 (extract_sql_text genReply) = Except.error e)
    (hf : extract_sql_text (fixReply (extract_sql_text genReply) e) ≠ "")
    (hv2 : validate_sql_safety (extract_sql_text (fixReply (extract_sql_text genReply) e)) = "")
    (he2 : dbExec 1 (extract_sql_text (fixReply (extract_sql_text genReply) e))
      = Except.ok df2) :
    run_sql_with_autofix genReply fixReply dbExec =
      (Except.ok (df2, extract_sql_text (fixReply (extract_sql_text genReply) e)),
        [SqlEvent.execCall (extract_sql_text genReply),
         SqlEvent.fixCall (extract_sql_text genReply) e,
         SqlEvent.execCall (extract_sql_text (fixReply (extract_sql_text genReply) e))]) := by
  simp [run_sql_with_autofix, hg, hv, he, hf, hv2, he2]

theorem run_sql_fix_exec_err {Df : Type} (genReply : String)
    (fixReply : String → String → String) (dbExec : Nat → String → Except String Df)
    (e e2 : String) (hg : extract_sql_text genReply ≠ "")
    (hv : validate_sql_safety (extract_sql_text genReply) = "")
    (he : dbExec 0 (extract_sql_text genReply) = Except.error e)
    (hf : extract_sql_text (fixReply (extract_sql_text genReply) e) ≠ "")
    (hv2 : validate_sql_safety (extract_sql_text (fixReply (extract_sql_text genReply) e)) = "")
    (he2 : dbExec 1 (extract_sql_text (fixReply (extract_sql_text genReply) e))
      = Except.error e2) :
    run_sql_with_autofix genReply fixReply dbExec =
      (Except.error e2,
        [SqlEvent.execCall (extract_sql_text genReply),
         SqlEvent.fixCall (extract_sql_text genReply) e,
         SqlEvent.execCall (extract_sql_text (fixReply (extract_sql_text genReply) e))]) := by
  simp [run_sql_with_autofix, hg, hv, he, hf, hv2, he2]

/- ===================== C1 ===================== -/

/-- C1: for every run of the SQL pipeline, the database execute operation is
invoked only on SQL strings the Safety Validator classified safe (empty
reason); if the generated SQL fails validation the pipeline raises with no
execution attempt, and if the repaired SQL fails validation the pipeline
raises after the first execution and the repair call, with no second
execution. -/
theorem validated_sql_only_executed {Df : Type} (genReply : String)
    (fixReply : String → String → String) (dbExec : Nat → String → Except String Df) :
    (∀ s, SqlEvent.execCall s ∈ (run_sql_with_autofix genReply fixReply dbExec).2 →
      validate_sql_safety s = "") ∧
    (validate_sql_safety (extract_sql_text genReply) ≠ "" →
      (run_sql_with_autofix genReply fixReply dbExec).2 = [] ∧
      ∃ e, (run_sql_with_autofix genReply fixReply dbExec).1 = Except.error e) ∧
    (∀ e, extract_sql_text genReply ≠ "" →
      validate_sql_safety (extract_sql_text genReply) = "" →
      dbExec 0 (extract_sql_text genReply) = Except.error e →
      validate_sql_safety (extract_sql_text (fixReply (extract_sql_text genReply) e)) ≠ "" →
      (run_sql_with_autofix genReply fixReply dbExec).2 =
        [SqlEvent.execCall (extract_sql_text genReply),
         SqlEvent.fixCall (extract_sql_text genReply) e] ∧
      ∃ e2, (run_sql_with_autofix genReply fixReply dbExec).1 = Except.error e2) := by
  refine ⟨?_, ?_, ?_⟩
  · intro s hs
    by_cases hg : extract_sql_text genReply = ""
    · rw [run_sql_gen_empty genReply fixReply dbExec hg] at hs
      simp at hs
    by_cases hv : validate_sql_safety (extract_sql_text genReply) = ""
    case neg =>
      rw [run_sql_gen_blocked genReply fixReply dbExec hg hv] at hs
      simp at hs
    cases he : dbExec 0 (extract_sql_text genReply) with
    | ok df =>
      rw [run_sql_exec_ok genReply fixReply dbExec df hg hv he] at hs
      simp at hs
      rw [hs]
      exact hv
    | error e =>
      by_cases hf : extract_sql_text (fixReply (extract_sql_text genReply) e) = ""
      · rw [run_sql_fix_empty genReply fixReply dbExec e hg hv he hf] at hs
        simp at hs
        rw [hs]
        exact hv
      by_cases hv2 : validate_sql_safety
          (extract_sql_text (fixReply (extract_sql_text genReply) e)) = ""
      case neg =>
        rw [run_sql_fix_blocked genReply fixReply dbExec e hg hv he hf hv2] at hs
        simp at hs
        rw [hs]
        exact hv
      cases he2 : dbExec 1 (extract_sql_text (fixReply (extract_sql_text genReply) e)) with
      | ok df2 =>
        rw [run_sql_fix_exec_ok genReply fixReply dbExec e df2 hg hv he hf hv2 he2] at hs
        simp at hs
        rcases hs with hs | hs
        · rw [hs]; exact hv
        · rw [hs]; exact hv2
      | error e2 =>
        rw [run_sql_fix_exec_err genReply fixReply dbExec e e2 hg hv he hf hv2 he2] at hs
        simp at hs
        rcases hs with hs | hs
        · rw [hs]; exact hv
        · rw [hs]; exact hv2
  · intro hv
    by_cases hg : extract_sql_text genReply = ""
    · rw [run_sql_gen_empty genReply fixReply dbExec hg]
      exact ⟨rfl, _, rfl⟩
    · rw [run_sql_gen_blocked genReply fixReply dbExec hg hv]
      exact ⟨rfl, _, rfl⟩
  · intro e hg hv he hv2
    by_cases hf : extract_sql_text (fixReply (extract_sql_text genReply) e) = ""
    · rw [run_sql_fix_empty genReply fixReply dbExec e hg hv he hf]
      exact ⟨rfl, _, rfl⟩
    · rw [run_sql_fix_blocked genReply fixReply dbExec e hg hv he hf hv2]
      exact ⟨rfl, _, rfl⟩

/-- C1 witness: a generated DROP statement is blocked before any execution
attempt. -/
theorem validated_sql_only_executed_witness :
    validate_sql_safety (extract_sql_text "DROP TABLE x") ≠ "" ∧
    (run_sql_with_autofix "DROP TABLE x" (fun _ _ => "")
        (fun _ _ => (Except.error "db reached" : Except String Unit))).2 = [] ∧
    ∃ e, (run_sql_with_autofix "DROP TABLE x" (fun _ _ => "")
        (fun _ _ => (Except.error "db reached" : Except String Unit))).1 = Except.error e :=
  ⟨by decide,
    (validated_sql_only_executed "DROP TABLE x" (fun _ _ => "")
      (fun _ _ => (Except.error "db reached" : Except String Unit))).2.1 (by decide)⟩

/- ===================== C2 ===================== -/

/-- C2: at most one repair call per run; the repair call happens exactly when
the first execution of the validated generated SQL raised; an empty repair
re-raises the original execution error; and a failure of the repaired SQL
propagates with no further repair attempt. -/
theorem at_most_one_repair {Df : Type} (genReply : String)
    (fixReply : String → String → String) (dbExec : Nat → String → Except String Df) :
    ((run_sql_with_autofix genReply fixReply dbExec).2.countP SqlEvent.isFix ≤ 1) ∧
    (∀ s e, SqlEvent.fixCall s e ∈ (run_sql_with_autofix genReply fixReply dbExec).2 →
      s = extract_sql_text genReply ∧ s ≠ "" ∧ validate_sql_safety s = "" ∧
        dbExec 0 s = Except.error e) ∧
    (∀ e, extract_sql_text genReply ≠ "" →
      validate_sql_safety (extract_sql_text genReply) = "" →
      dbExec 0 (extract_sql_text genReply) = Except.error e →
      SqlEvent.fixCall (extract_sql_text genReply) e ∈
        (run_sql_with_autofix genReply fixReply dbExec).2) ∧
    (∀ e, extract_sql_text genReply ≠ "" →
      validate_sql_safety (extract_sql_text genReply) = "" →
      dbExec 0 (extract_sql_text genReply) = Except.error e →
      extract_sql_text (fixReply (extract_sql_text genReply) e) = "" →
      (run_sql_with_autofix genReply fixReply dbExec).1 = Except.error e) ∧
    (∀ e e2, extract_sql_text genReply ≠ "" →
      validate_sql_safety (extract_sql_text genReply) = "" →
      dbExec 0 (extract_sql_text genReply) = Except.error e →
      extract_sql_text (fixReply (extract_sql_text genReply) e) ≠ "" →
      validate_sql_safety (extract_sql_text (fixReply (extract_sql_text genReply) e)) = "" →
      dbExec 1 (extract_sql_text (fixReply (extract_sql_text genReply) e))
        = Except.error e2 →
      (run_sql_with_autofix genReply fixReply dbExec).1 = Except.error e2) := by
  refine ⟨?_, ?_, ?_, ?_, ?_⟩
  · by_cases hg : extract_sql_text genReply = ""
    · rw [run_sql_gen_empty genReply fixReply dbExec hg]
      simp
    by_cases hv : validate_sql_safety (extract_sql_text genReply) = ""
    case neg =>
      rw [run_sql_gen_blocked genReply fixReply dbExec hg hv]
      simp
    cases he : dbExec 0 (extract_sql_text genReply) with
    | ok df =>
      rw [run_sql_exec_ok genReply fixReply dbExec df hg hv he]
      simp [SqlEvent.isFix]
    | error e =>
      by_cases hf : extract_sql_text (fixReply (extract_sql_text genReply) e) = ""
      · rw [run_sql_fix_empty genReply fixReply dbExec e hg hv he hf]
        simp [SqlEvent.isFix]
      by_cases hv2 : validate_sql_safety
          (extract_sql_text (fixReply (extract_sql_text genReply) e)) = ""
      case neg =>
        rw [run_sql_fix_blocked genReply fixReply dbExec e hg hv he hf hv2]
        simp [SqlEvent.isFix]
      cases he2 : dbExec 1 (extract_sql_text (fixReply (extract_sql_text genReply) e)) with
      | ok df2 =>
        rw [run_sql_fix_exec_ok genReply fixReply dbExec e df2 hg hv he hf hv2 he2]
        simp [SqlEvent.isFix]
      | error e2 =>
        rw [run_sql_fix_exec_err genReply fixReply dbExec e e2 hg hv he hf hv2 he2]
        simp [SqlEvent.isFix]
  · intro s e hs
    by_cases hg : extract_sql_text genReply = ""
    · rw [run_sql_gen_empty genReply fixReply dbExec hg] at hs
      simp at hs
    by_cases hv : validate_sql_safety (extract_sql_text genReply) = ""
    case neg =>
      rw [run_sql_gen_blocked genReply fixReply dbExec hg hv] at hs
      simp at hs
    cases he : dbExec 0 (extract_sql_text genReply) with
    | ok df =>
      rw [run_sql_exec_ok genReply fixReply dbExec df hg hv he] at hs
      simp at hs
    | error e0 =>
      have hgoal : s = extract_sql_text genReply ∧ e = e0 →
          s = extract_sql_text genReply ∧ s ≠ "" ∧ validate_sql_safety s = "" ∧
            dbExec 0 s = Except.error e := by
        rintro ⟨rfl, rfl⟩
        exact ⟨rfl, hg, hv, he⟩
      by_cases hf : extract_sql_text (fixReply (extract_sql_text genReply) e0) = ""
      · rw [run_sql_fix_empty genReply fixReply dbExec e0 hg hv he hf] at hs
        simp at hs
        exact hgoal hs
      by_cases hv2 : validate_sql_safety
          (extract_sql_text (fixReply (extract_sql_text genReply) e0)) = ""
      case neg =>
        rw [run_sql_fix_blocked genReply fixReply dbExec e0 hg hv he hf hv2] at hs
        simp at hs
        exact hgoal hs
      cases he2 : dbExec 1 (extract_sql_text (fixReply (extract_sql_text genReply) e0)) with
      | ok df2 =>
        rw [run_sql_fix_exec_ok genReply fixReply dbExec e0 df2 hg hv he hf hv2 he2] at hs
        simp at hs
        exact hgoal hs
      | error e2 =>
        rw [run_sql_fix_exec_err genReply fixReply dbExec e0 e2 hg hv he hf hv2 he2] at hs
        simp at hs
        exact hgoal hs
  · intro e hg hv he
    by_cases hf : extract_sql_text (fixReply (extract_sql_text genReply) e) = ""
    · rw [run_sql_fix_empty genReply fixReply dbExec e hg hv he hf]
      simp
    by_cases hv2 : validate_sql_safety
        (extract_sql_text (fixReply (extract_sql_text genReply) e)) = ""
    case neg =>
      rw [run_sql_fix_blocked genReply fixReply dbExec e hg hv he hf hv2]
      simp
    cases he2 : dbExec 1 (extract_sql_text (fixReply (extract_sql_text genReply) e)) with
    | ok df2 =>
      rw [run_sql_fix_exec_ok genReply fixReply dbExec e df2 hg hv he hf hv2 he2]
      simp
    | error e2 =>
      rw [run_sql_fix_exec_err genReply fixReply dbExec e e2 hg hv he hf hv2 he2]
      simp
  · intro e hg hv he hf
    rw [run_sql_fix_empty genReply fixReply dbExec e hg hv he hf]
  · intro e e2 hg hv he hf hv2 he2
    rw [run_sql_fix_exec_err genReply fixReply dbExec e e2 hg hv he hf hv2 he2]

/-- C2 witness: a failing first execution triggers exactly one repair call
whose failure propagates. -/
theorem at_most_one_repair_witness :
    (run_sql_with_autofix "SELECT 1" (fun _ _ => "SELECT 2")
      (fun i _ => if i = 0 then (Except.error "boom" : Except String Unit)
        else Except.error "boom2")).1 = Except.error "boom2" :=
  (at_most_one_repair "SELECT 1" (fun _ _ => "SELECT 2")
    (fun i _ => if i = 0 then (Except.error "boom" : Except String Unit)
      else Except.error "boom2")).2.2.2.2 "boom" "boom2"
    (by decide) (by decide) (by rfl) (by decide) (by decide) (by rfl)

/- ===================== Session helpers ===================== -/

theorem run_session_all_ok {Df : Type} (results : List (Except String (Df × String))) :
    ∀ st : SessionState, (∀ r ∈ results, okSql r ≠ none) →
      (run_session st results).sql_history = st.sql_history ++ results.filterMap okSql := by
  induction results with
  | nil =>
    intro st _
    simp [run_session]
  | cons r rs ih =>
    intro st hall
    have hr := hall r (List.mem_cons_self _ _)
    cases r with
    | error e => simp [okSql] at hr
    | ok p =>
      obtain ⟨df, s2⟩ := p
      have hstep : run_session st (Except.ok (df, s2) :: rs)
          = run_session (handle_sql_message st (Except.ok (df, s2))) rs := by
        simp [run_session]
      rw [hstep, ih _ (fun x hx => hall x (List.mem_cons_of_mem _ hx))]
      simp [handle_sql_message, okSql]

theorem filterMap_okSql_length {Df : Type} (results : List (Except String (Df × String)))
    (h : ∀ r ∈ results, okSql r ≠ none) :
    (results.filterMap okSql).length = results.length := by
  induction results with
  | nil => rfl
  | cons r rs ih =>
    have hr := h r (List.mem_cons_self _ _)
    cases r with
    | error e => simp [okSql] at hr
    | ok p =>
      obtain ⟨df, s2⟩ := p
      simp only [okSql, List.filterMap_cons, List.length_cons]
      rw [ih (fun x hx => h x (List.mem_cons_of_mem _ hx))]

/- ===================== C6 ===================== -/

/-- C6: the Query History is appended only by the orchestrator acting on a
fully completed pipeline result: a failed run leaves it unchanged, a
successful run appends exactly the executed SQL (one entry, the repaired SQL
when the first execution failed), and N successful runs append N entries in
execution order. -/
theorem query_history_discipline {Df : Type} (genReply : String)
    (fixReply : String → String → String) (dbExec : Nat → String → Except String Df)
    (st : SessionState) (results : List (Except String (Df × String))) :
    (∀ e, (run_sql_with_autofix genReply fixReply dbExec).1 = Except.error e →
      (handle_sql_message st (run_sql_with_autofix genReply fixReply dbExec).1).sql_history
        = st.sql_history) ∧
    (∀ df used_sql,
      (run_sql_with_autofix genReply fixReply dbExec).1 = Except.ok (df, used_sql) →
      (handle_sql_message st (run_sql_with_autofix genReply fixReply dbExec).1).sql_history
        = st.sql_history ++ [used_sql]) ∧
    (∀ e df used_sql, dbExec 0 (extract_sql_text genReply) = Except.error e →
      (run_sql_with_autofix genReply fixReply dbExec).1 = Except.ok (df, used_sql) →
      used_sql = extract_sql_text (fixReply (extract_sql_text genReply) e)) ∧
    ((∀ r ∈ results, okSql r ≠ none) →
      (run_session st results).sql_history = st.sql_history ++ results.filterMap okSql ∧
      (run_session st results).sql_history.length
        = st.sql_history.length + results.length) := by
  refine ⟨?_, ?_, ?_, ?_⟩
  · intro e hE
    rw [hE]
    rfl
  · intro df used_sql hE
    rw [hE]
    rfl
  · intro e df used_sql he hE
    by_cases hg : extract_sql_text genReply = ""
    · rw [run_sql_gen_empty genReply fixReply dbExec hg] at hE
      exact absurd hE (by simp)
    by_cases hv : validate_sql_safety (extract_sql_text genReply) = ""
    case neg =>
      rw [run_sql_gen_blocked genReply fixReply dbExec hg hv] at hE
      exact absurd hE (by simp)
    by_cases hf : extract_sql_text (fixReply (extract_sql_text genReply) e) = ""
    · rw [run_sql_fix_empty genReply fixReply dbExec e hg hv he hf] at hE
      exact absurd hE (by simp)
    by_cases hv2 : validate_sql_safety
        (extract_sql_text (fixReply (extract_sql_text genReply) e)) = ""
    case neg =>
      rw [run_sql_fix_blocked genReply fixReply dbExec e hg hv he hf hv2] at hE
      exact absurd hE (by simp)
    cases he2 : dbExec 1 (extract_sql_text (fixReply (extract_sql_text genReply) e)) with
    | ok df2 =>
      rw [run_sql_fix_exec_ok genReply fixReply dbExec e df2 hg hv he hf hv2 he2] at hE
      simp only [Prod.fst] at hE
      injection hE with hE
      injection hE with _ hE2
      exact hE2.symm
    | error e2 =>
      rw [run_sql_fix_exec_err genReply fixReply dbExec e e2 hg hv he hf hv2 he2] at hE
      exact absurd hE (by simp)
  · intro hall
    refine ⟨run_session_all_ok results st hall, ?_⟩
    rw [run_session_all_ok results st hall]
    simp [filterMap_okSql_length results hall]

/-- C6 witness: a run blocked by the validator leaves the SQL history
unchanged. -/
theorem query_history_discipline_witness :
    (handle_sql_message (SessionState.mk [] ["SELECT 1"])
      (run_sql_with_autofix "DROP TABLE t" (fun _ _ => "")
        (fun _ _ => (Except.error "db reached" : Except String Unit))).1).sql_history
      = (SessionState.mk [] ["SELECT 1"]).sql_history :=
  (query_history_discipline "DROP TABLE t" (fun _ _ => "")
    (fun _ _ => (Except.error "db reached" : Except String Unit))
    (SessionState.mk [] ["SELECT 1"]) []).1
    "SQL заблокирован: Разрешены только SELECT / WITH ... SELECT." (by rfl)

/- ===================== C7 ===================== -/

theorem stringMk_eq_empty_iff (l : List Char) : String.mk l = "" ↔ l = [] := by
  constructor
  · intro h
    have h2 := congrArg String.data h
    exact h2
  · intro h
    rw [h]

/-- C7: query_run retries at most once, with the duplicate-database-prefix
rewrite of the query, exactly when the first execution fails with the
unknown-table signature, the configured database name is non-blank and the
rewrite changes the query text; in every other failure case the original
error is re-raised.  The embedding has no language-model oracle, mirroring
the source, which performs this fix without any model call. -/
theorem query_run_retry_discipline {Df : Type} (db : String)
    (dbExec : Nat → String → Except String Df) (query_text : String) :
    ((query_run db dbExec query_text).2 = [query_text] ∨
      (query_run db dbExec query_text).2 =
        [query_text, collapse_db_qualifier (String.mk (pyStrip db.data)) query_text]) ∧
    (∀ res, dbExec 0 query_text = Except.ok res →
      query_run db dbExec query_text = (Except.ok res, [query_text])) ∧
    (∀ e, dbExec 0 query_text = Except.error e →
      (unknown_table_error e = false ∨ pyStrip db.data = [] ∨
        collapse_db_qualifier (String.mk (pyStrip db.data)) query_text = query_text) →
      query_run db dbExec query_text = (Except.error e, [query_text])) ∧
    (∀ e, dbExec 0 query_text = Except.error e → unknown_table_error e = true →
      pyStrip db.data ≠ [] →
      collapse_db_qualifier (String.mk (pyStrip db.data)) query_text ≠ query_text →
      query_run db dbExec query_text =
        (dbExec 1 (collapse_db_qualifier (String.mk (pyStrip db.data)) query_text),
          [query_text, collapse_db_qualifier (String.mk (pyStrip db.data)) query_text])) := by
  refine ⟨?_, ?_, ?_, ?_⟩
  · cases he : dbExec 0 query_text with
    | ok res => simp [query_run, he]
    | error e =>
      by_cases hu : unknown_table_error e = true
      case neg =>
        simp [query_run, he, hu]
      by_cases hdb : String.mk (pyStrip db.data) = ""
      · simp [query_run, he, hu, hdb]
      by_cases hfx : collapse_db_qualifier (String.mk (pyStrip db.data)) query_text = query_text
      · simp [query_run, he, hu, hdb, hfx]
      · simp [query_run, he, hu, hdb, hfx]
  · intro res he
    simp [query_run, he]
  · intro e he hcond
    rcases hcond with hu | hdb | hfx
    · simp [query_run, he, hu]
    · have hdb2 : String.mk (pyStrip db.data) = "" := (stringMk_eq_empty_iff _).mpr hdb
      by_cases hu : unknown_table_error e = true
      · simp [query_run, he, hu, hdb2]
      · simp [query_run, he, hu]
    · by_cases hu : unknown_table_error e = true
      case neg => simp [query_run, he, hu]
      by_cases hdb : String.mk (pyStrip db.data) = ""
      · simp [query_run, he, hu, hdb]
      · simp [query_run, he, hu, hdb, hfx]
  · intro e he hu hdbl hfx
    have hdb : ¬ String.mk (pyStrip db.data) = "" := fun hc =>
      hdbl ((stringMk_eq_empty_iff _).mp hc)
    simp [query_run, he, hu, hdb, hfx]

/-- C7 witness: an unknown-table failure on a query with a duplicated
database prefix is retried once with the collapsed query and succeeds. -/
theorem query_run_retry_discipline_witness :
    query_run "db1"
      (fun i _ => if i = 0
        then (Except.error "Code: 60. DB::Exception UNKNOWN_TABLE" : Except String Unit)
        else Except.ok ())
      "SELECT x FROM db1.db1.t"
      = (Except.ok (), ["SELECT x FROM db1.db1.t", "SELECT x FROM db1.t"]) := by
  have h := (query_run_retry_discipline "db1"
    (fun i _ => if i = 0
      then (Except.error "Code: 60. DB::Exception UNKNOWN_TABLE" : Except String Unit)
      else Except.ok ())
    "SELECT x FROM db1.db1.t").2.2.2 "Code: 60. DB::Exception UNKNOWN_TABLE"
    (by rfl) (by decide) (by decide) (by decide)
  rw [h]
  rfl

/- ===================== C9 ===================== -/

/-- C9 evaluation (code bug): with a non-empty SQL history, the message list
actually built by the RAG pipeline contains only the system prompt, the
context block and the history — it omits the SQL-history block that
build_rag_messages (documented in src/prompts.py as what the RAG answerer
sends) would place between the system prompt and the context block. -/
theorem rag_messages_omit_sql_history :
    answer_with_rag_messages "CTX" [] =
      [ChatMessage.mk "system" RAG_SYSTEM_PROMPT,
       ChatMessage.mk "system" "КОНТЕКСТ БАЗЫ ЗНАНИЙ:\nCTX"] ∧
    build_rag_messages "CTX" []
        "ИСТОРИЯ SQL ЗАПРОСОВ (от старых к новым):\n\n---\n\n[1]\nSELECT 1" =
      [ChatMessage.mk "system" RAG_SYSTEM_PROMPT,
       ChatMessage.mk "system"
         "ИСТОРИЯ SQL ЗАПРОСОВ (от старых к новым):\n\n---\n\n[1]\nSELECT 1",
       ChatMessage.mk "system" "КОНТЕКСТ БАЗЫ ЗНАНИЙ:\nCTX"] ∧
    (answer_with_rag_messages "CTX" []).all
      (fun m =>
        m.content != "ИСТОРИЯ SQL ЗАПРОСОВ (от старых к новым):\n\n---\n\n[1]\nSELECT 1")
      = true := by
  set_option maxRecDepth 8192 in decide

/- ===================== C10 ===================== -/

/-- C10: with the default parameters, every chunk produced by the ingestion
chunker is non-empty, stripped of edge whitespace and of length at most
chunk_size; the result is empty exactly when the input is empty or
whitespace-only.  Termination is inherent: the embedding is a total
function. -/
theorem chunk_text_wellformed (text : String) :
    (∀ c ∈ chunk_text text 900 120,
      c.data ≠ [] ∧ c.data.length ≤ 900 ∧ pyStrip c.data = c.data) ∧
    (chunk_text text 900 120 = [] ↔ text.data.all pyIsSpace = true) := by
  constructor
  · intro c hc
    by_cases hcl : pyStrip text.data = []
    · simp [chunk_text, hcl] at hc
    · simp only [chunk_text] at hc
      rw [if_neg hcl] at hc
      norm_num at hc
      obtain ⟨a, _, h0, hf2⟩ := hc
      subst hf2
      refine ⟨h0, ?_, ?_⟩
      · show (pyStrip (List.take 900 (List.drop (a * 780) (pyStrip text.data)))).length ≤ 900
        refine le_trans (pyStrip_length_le _) ?_
        rw [List.length_take]
        exact min_le_left _ _
      · show pyStrip (pyStrip (List.take 900 (List.drop (a * 780) (pyStrip text.data))))
          = pyStrip (List.take 900 (List.drop (a * 780) (pyStrip text.data)))
        exact pyStrip_idem _
  · have hkey : chunk_text text 900 120 = [] ↔ pyStrip text.data = [] := by
      constructor
      · intro hnil
        by_contra hcl
        cases hsd : pyStrip text.data with
        | nil => exact hcl hsd
        | cons c0 t0 =>
          have hc0 : pyIsSpace c0 = false := pyStrip_head_not_space _ _ _ hsd
          simp only [chunk_text] at hnil
          rw [if_neg hcl] at hnil
          norm_num at hnil
          have hK : 0 < ((pyStrip text.data).length + 779) / 780 := by
            have hlen : 1 ≤ (pyStrip text.data).length := by
              rw [hsd]
              simp
            have h1 : (1 : Nat) ≤ ((pyStrip text.data).length + 779) / 780 := by
              rw [Nat.le_div_iff_mul_le (by norm_num)]
              omega
            omega
          have hne : ¬ pyStrip (List.take 900 (List.drop (0 * 780) (pyStrip text.data))) = [] := by
            rw [show (0 * 780 : Nat) = 0 by norm_num, List.drop_zero, hsd]
            rw [show (900 : Nat) = 899 + 1 from rfl, List.take_succ_cons]
            rw [pyStrip_eq_nil_iff]
            intro hall
            have := hall c0 (List.mem_cons_self _ _)
            rw [hc0] at this
            exact Bool.false_ne_true this
          have hfz := hnil 0 hK hne
          exact absurd hfz (by simp)
      · intro hcl
        simp [chunk_text, hcl]
    rw [hkey, pyStrip_eq_nil_iff, List.all_eq_true]

/-- C10 witness: a concrete input produces a non-empty, stripped, short
chunk. -/
theorem chunk_text_wellformed_witness :
    ("ab" : String).data ≠ [] ∧ ("ab" : String).data.length ≤ 900 ∧
      pyStrip ("ab" : String).data = ("ab" : String).data :=
  (chunk_text_wellformed "  ab  ").1 "ab" (by decide)

end WarrantyRag
